import Mathlib

/-!
Verification of the questionnaire progression and answer-refinement state
machine of the BPR chatbot (`app.py`).

The development shallowly embeds the Streamlit session state and the handler
code of `app.py` into Lean:

* strings are Lean `String`s and the Python string operations used by the
  source (`strip`, `split`, `startswith`, `in`) are modelled character-wise;
* the Gemini call `model.generate_content(...).text` is an external
  collaborator and enters as an `Except Unit String` parameter (an exception
  or the raw response text);
* `json.loads` is an external library call and enters as a
  `String → Option PyObj` parameter (`none` models a raised exception); the
  concrete `jsonLoadsImpl` below evaluates it on the simple inputs used in
  the concrete theorems;
* the Streamlit session-state dictionary becomes the record `SessionState`,
  the per-redraw screen dispatch of `main()` becomes `screenOf`, and every
  button handler becomes a branch of the transition function `step`;
* `datetime.now().isoformat()` is modelled by a `Nat` clock value passed
  into each transition.
-/

namespace BPR

/-! ## Python string primitives -/

/-- Python `str.split(c)` on a single character: splits at every occurrence,
keeping empty pieces. -/
def splitChar (c : Char) : List Char → List (List Char)
  | [] => [[]]
  | x :: xs =>
    let r := splitChar c xs
    if x = c then [] :: r
    else
      match r with
      | [] => [[x]]
      | y :: ys => (x :: y) :: ys

/-- Python `str.strip(chars)`: removes any of the given characters from both
ends of the string. -/
def pyStripSet (cs : List Char) (s : String) : String :=
  String.mk (((s.data.dropWhile (fun c => cs.contains c)).reverse.dropWhile
    (fun c => cs.contains c)).reverse)

/-- Python `str.strip()` with no argument: removes surrounding whitespace. -/
def pyStrip (s : String) : String :=
  pyStripSet [' ', '\t', '\n', '\r'] s

/-- Python `str.startswith(pre)`. -/
def strStartsWith (pre s : String) : Bool :=
  pre.data.isPrefixOf s.data

/-- Python `s.split(m, 1)[1]` under the guarantee that `s` starts with `m`:
the text after the marker. -/
def dropMarker (m s : String) : String :=
  String.mk (s.data.drop m.data.length)

/-- Python `s.split('\n')`, as a list of strings. -/
def splitLines (s : String) : List String :=
  (splitChar '\n' s.data).map String.mk

/-! ## AdequacyClassifier adapter (`validate_response`) -/

/-- Abstraction of the Python value returned by the external `json.loads`:
either a list (whose elements, in this questionnaire domain, are the
follow-up question strings) or any non-list value. -/
inductive PyObj where
  | pyList (xs : List String)
  | pyNonList
deriving DecidableEq

/-- The character set of the source's `line.strip('- "[],"')`. -/
def fallbackStripSet : List Char := ['-', ' ', '"', '[', ']', ',']

/-- The manual question extraction of the `except` branch of
`validate_response`: scan the lines after the first one, keep stripped
non-empty lines containing a question mark, strip surrounding punctuation,
drop results that became empty, take the first two. -/
def fallbackQuestions (response_text : String) : List String :=
  let lines := splitLines response_text
  let questions := (lines.drop 1).filterMap (fun line =>
    let line := pyStrip line
    if line ≠ "" ∧ line.data.contains '?' then
      let question := pyStripSet fallbackStripSet line
      if question ≠ "" then some question else none
    else none)
  questions.take 2

/-- The text handed to `json.loads`:
`response_text.split("NEEDS_FOLLOWUP", 1)[1].strip()` for a `response_text`
that starts with the marker. -/
def jsonPartOf (response_text : String) : String :=
  pyStrip (dropMarker "NEEDS_FOLLOWUP" response_text)

/-- Shallow embedding of `validate_response` (`app.py` lines 59-116).
`modelPresent` is the `if not model` guard; `genResult` is the outcome of
`model.generate_content(prompt)` followed by `.text` (`Except.error` models a
raised exception); `jsonLoads` is the external `json.loads`, `none` modelling
a parse exception.  Returns `(is_adequate, followup_questions)`. -/
def validate_response (modelPresent : Bool) (genResult : Except Unit String)
    (jsonLoads : String → Option PyObj) : Bool × List String :=
  if modelPresent = false then (true, [])
  else
    match genResult with
    | Except.error _ => (true, [])
    | Except.ok raw =>
      let response_text := pyStrip raw
      if strStartsWith "ADEQUATE" response_text then (true, [])
      else if strStartsWith "NEEDS_FOLLOWUP" response_text then
        match jsonLoads (jsonPartOf response_text) with
        | some (PyObj.pyList xs) => (false, xs)
        | some PyObj.pyNonList => (false, [])
        | none => (false, fallbackQuestions response_text)
      else (true, [])

/-- Modelled from the source's use of the external `json.loads`: a concrete
parser that handles a flat JSON array of plain string literals (no escapes,
no commas inside the strings) and recognizes a braced object as a non-list
value; every other input fails.  It agrees with `json.loads` on the concrete
classifier outputs used in this development. -/
def jsonLoadsImpl (s : String) : Option PyObj :=
  let t := pyStrip s
  if t.data.head? = some '{' ∧ t.data.getLast? = some '}' then
    some PyObj.pyNonList
  else if t.data.head? = some '[' ∧ t.data.getLast? = some ']' then
    let inner := pyStrip (String.mk (t.data.drop 1).dropLast)
    if inner = "" then some (PyObj.pyList [])
    else
      ((splitChar ',' inner.data).map (fun cs => pyStrip (String.mk cs))
        |>.mapM (fun p =>
          if p.data.head? = some '"' ∧ p.data.getLast? = some '"' ∧
              2 ≤ p.data.length
          then some (String.mk (p.data.drop 1).dropLast)
          else none)).map PyObj.pyList
  else none

/-! ## Data model -/

/-- A question record of the loaded bank.  The `answered` field models the
mutable `'answered'` key that `save_response` writes into the section data
(`q.get('answered', False)` defaults to `false`). -/
structure Question where
  question : String
  context : Option String
  category : Option String
  answered : Bool
deriving DecidableEq

/-- A follow-up question/answer pair. -/
structure FollowupPair where
  question : String
  answer : String
deriving DecidableEq

/-- A stored response: `answer`, `followup` and `timestamp` of
`save_response`. -/
structure Response where
  answer : String
  followup : List FollowupPair
  timestamp : Nat
deriving DecidableEq

/-- The question bank: insertion-ordered dictionary from section name to its
question list. -/
abbrev Bank := List (String × List Question)

/-- The response store: dictionary from section name to a dictionary from
question index to `Response`. -/
abbrev ResponseStore := List (String × List (Nat × Response))

/-- Dictionary assignment `d[k] = v`: replace the value of an existing key,
otherwise append the new binding. -/
def updAssoc {κ β : Type} [BEq κ] (k : κ) (v : β) : List (κ × β) → List (κ × β)
  | [] => [(k, v)]
  | p :: rest => if p.1 == k then (k, v) :: rest else p :: updAssoc k v rest

/-- Modify the value of an existing key in place; no effect if absent. -/
def modAssoc {κ β : Type} [BEq κ] (k : κ) (f : β → β) :
    List (κ × β) → List (κ × β)
  | [] => []
  | p :: rest => if p.1 == k then (p.1, f p.2) :: rest else p :: modAssoc k f rest

/-- Lookup `responses[section][i]`, `none` when either key is absent. -/
def lookupResponse (store : ResponseStore) (sec : String) (i : Nat) :
    Option Response :=
  match store.lookup sec with
  | none => none
  | some inner => inner.lookup i

/-- `responses[section][q_index] = r`, creating the section dictionary when
missing (the `if section not in st.session_state.responses` branch of
`save_response`). -/
def storeSet (store : ResponseStore) (sec : String) (qIndex : Nat)
    (r : Response) : ResponseStore :=
  match store.lookup sec with
  | some _ => modAssoc sec (fun inner => updAssoc qIndex r inner) store
  | none => store ++ [(sec, [(qIndex, r)])]

/-! ## Session state -/

/-- The Streamlit session state of `initialize_session_state` (the unused
`section_progress` key is omitted). -/
structure SessionState where
  sections : Bank
  current_section : String
  current_question_index : Nat
  responses : ResponseStore
  completed_sections : List String
  followup_mode : Bool
  followup_questions : List String
  followup_answers : List FollowupPair
  current_followup_index : Nat
  original_answer : String
  editing_mode : Bool
  editing_question : Option (String × Nat)
deriving DecidableEq

/-- The state right after `initialize_session_state` with a freshly loaded
bank: every field at its initial value. -/
def initState (bank : Bank) : SessionState where
  sections := bank
  current_section := ""
  current_question_index := 0
  responses := []
  completed_sections := []
  followup_mode := false
  followup_questions := []
  followup_answers := []
  current_followup_index := 0
  original_answer := ""
  editing_mode := false
  editing_question := none

/-- The question list of the active section
(`st.session_state.sections[current_section]`). -/
def currentQuestions (st : SessionState) : List Question :=
  (st.sections.lookup st.current_section).getD []

/-- Count of questions whose `answered` flag is set
(`len([q for q in questions if q.get('answered', False)])`). -/
def countAnswered (qs : List Question) : Nat :=
  (qs.filter (fun q => q.answered)).length

/-- Python `set.add`. -/
def addCompleted (cs : List String) (name : String) : List String :=
  if name ∈ cs then cs else cs ++ [name]

/-- The side effect of `display_progress_sidebar`, run on every redraw: every
section whose answered count equals its total is added to
`completed_sections`. -/
def updateCompleted (st : SessionState) : SessionState :=
  { st with
    completed_sections := st.sections.foldl
      (fun acc p => if countAnswered p.2 = p.2.length then addCompleted acc p.1
        else acc)
      st.completed_sections }

/-- Set `sections[section][qIndex]['answered'] = True`. -/
def setFlagAt : List Question → Nat → List Question
  | [], _ => []
  | q :: qs, 0 => { q with answered := true } :: qs
  | q :: qs, n + 1 => q :: setFlagAt qs n

/-- Shallow embedding of `save_response` (`app.py` lines 202-214): writes the
response record and marks the question answered. -/
def save_response (st : SessionState) (sec : String) (qIndex : Nat)
    (answer : String) (followup_data : List FollowupPair) (now : Nat) :
    SessionState :=
  { st with
    responses := storeSet st.responses sec qIndex
      ⟨answer, followup_data, now⟩
    sections := modAssoc sec (fun qs => setFlagAt qs qIndex) st.sections }

/-- Shallow embedding of `reset_followup_state` (`app.py` lines 445-451). -/
def reset_followup_state (st : SessionState) : SessionState :=
  { st with
    followup_mode := false
    followup_questions := []
    followup_answers := []
    current_followup_index := 0
    original_answer := "" }

/-- The combined answer rendered in the exhausted-followups branch of
`display_followup_interface` (`app.py` lines 424-426). -/
def followupLine (fa : FollowupPair) : String :=
  "• " ++ fa.question ++ ": " ++ fa.answer ++ "\n"

/-- The loop building `combined_answer`. -/
def combine_answers (original : String) (fas : List FollowupPair) : String :=
  fas.foldl (fun acc fa => acc ++ followupLine fa)
    (original ++ "\n\nAdditional Details:\n")

/-! ## Screen dispatch of `main()` -/

/-- The screen that a redraw of `main()` presents, in precedence order. -/
inductive Screen where
  | summary
  | editing
  | sectionSelection
  | sectionComplete
  | followup
  | mainQuestion
deriving DecidableEq

/-- The dispatch of `main()` (`app.py` lines 238-285), evaluated after the
sidebar has updated `completed_sections`:
summary when every section is completed, else the editing screen when
`editing_mode`, else section selection when no section is active, else the
section-complete transition when the cursor has run past the section, else
the follow-up interface in `followup_mode`, else the main question
interface. -/
def screenOf (st : SessionState) : Screen :=
  if st.completed_sections.length = st.sections.length then Screen.summary
  else if st.editing_mode then Screen.editing
  else if st.current_section = "" then Screen.sectionSelection
  else if (currentQuestions st).length ≤ st.current_question_index then
    Screen.sectionComplete
  else if st.followup_mode then Screen.followup
  else Screen.mainQuestion

/-! ## Handlers and the transition function -/

/-- The `Start` button handler of `display_section_selection`
(`app.py` lines 314-321): set the section, then scan for the first question
whose `answered` flag is unset; when every question is flagged the loop body
never runs and the cursor keeps its previous value. -/
def selectSectionEffect (st : SessionState) (name : String) : SessionState :=
  let questions := (st.sections.lookup name).getD []
  let st' := { st with current_section := name }
  match questions.findIdx? (fun q => !q.answered) with
  | some i => { st' with current_question_index := i }
  | none => st'

/-- The `Save Changes` handler of `display_editing_interface`
(`app.py` lines 485-498): with non-blank text, overwrite `answer` and
`timestamp` of the edited response in place and leave editing mode; with
blank text only a warning is shown. -/
def saveChangesEffect (st : SessionState) (newAnswer : String) (now : Nat) :
    SessionState :=
  match st.editing_question with
  | none => st
  | some (es, ei) =>
    if pyStrip newAnswer ≠ "" then
      { st with
        responses := modAssoc es
          (fun inner => modAssoc ei
            (fun r => { r with answer := pyStrip newAnswer, timestamp := now })
            inner)
          st.responses
        editing_mode := false
        editing_question := none }
    else st

/-- The `Cancel` handler of `display_editing_interface`
(`app.py` lines 501-504). -/
def cancelEditEffect (st : SessionState) : SessionState :=
  { st with editing_mode := false, editing_question := none }

/-- The discrete user actions (and the automatic section-complete
transition) of the app. -/
inductive Action where
  | selectSection (name : String)
  | submit (answer : String)
  | skip
  | backToSections
  | nextFollowup (answer : String)
  | useOriginal
  | acceptFinal
  | startOver
  | sectionComplete
  | editRequest (sec : String) (qIndex : Nat)
  | saveChanges (newAnswer : String)
  | cancelEdit
  | startNew
deriving DecidableEq

/-- One redraw-plus-action transition of the app.  The sidebar effect
`updateCompleted` runs first (as in `main()`); each action then applies its
handler exactly when the redraw presents the screen carrying that control,
and otherwise leaves the state as the redraw left it.
`genResult`/`jsonLoads` feed the single classifier call of the submit
handler; `now` is the current clock. -/
def step (genResult : Except Unit String) (jsonLoads : String → Option PyObj)
    (now : Nat) (st : SessionState) (a : Action) : SessionState :=
  let st := updateCompleted st
  match a with
  | Action.selectSection name =>
    if screenOf st = Screen.sectionSelection ∧
        (st.sections.lookup name).isSome ∧ name ∉ st.completed_sections then
      selectSectionEffect st name
    else st
  | Action.submit answer =>
    if screenOf st = Screen.mainQuestion then
      if pyStrip answer ≠ "" then
        let v := validate_response true genResult jsonLoads
        if v.1 then
          let st' := save_response st st.current_section
            st.current_question_index (pyStrip answer) [] now
          { st' with current_question_index := st'.current_question_index + 1 }
        else
          { st with
            followup_mode := true
            followup_questions := v.2
            followup_answers := []
            current_followup_index := 0
            original_answer := pyStrip answer }
      else st
    else st
  | Action.skip =>
    if screenOf st = Screen.mainQuestion then
      let st' := save_response st st.current_section
        st.current_question_index "Skipped" [] now
      { st' with current_question_index := st'.current_question_index + 1 }
    else st
  | Action.backToSections =>
    if screenOf st = Screen.mainQuestion then
      { st with current_section := "", followup_mode := false }
    else st
  | Action.nextFollowup answer =>
    if screenOf st = Screen.followup ∧
        st.current_followup_index < st.followup_questions.length then
      if pyStrip answer ≠ "" then
        { st with
          followup_answers := st.followup_answers ++
            [⟨st.followup_questions.getD st.current_followup_index "",
              pyStrip answer⟩]
          current_followup_index := st.current_followup_index + 1 }
      else st
    else st
  | Action.useOriginal =>
    if screenOf st = Screen.followup ∧
        st.current_followup_index < st.followup_questions.length then
      let st' := save_response st st.current_section
        st.current_question_index st.original_answer [] now
      let st' := reset_followup_state st'
      { st' with current_question_index := st'.current_question_index + 1 }
    else st
  | Action.acceptFinal =>
    if screenOf st = Screen.followup ∧
        ¬ st.current_followup_index < st.followup_questions.length then
      let combined := combine_answers st.original_answer st.followup_answers
      let st' := save_response st st.current_section
        st.current_question_index combined st.followup_answers now
      let st' := reset_followup_state st'
      { st' with current_question_index := st'.current_question_index + 1 }
    else st
  | Action.startOver =>
    if screenOf st = Screen.followup ∧
        ¬ st.current_followup_index < st.followup_questions.length then
      reset_followup_state st
    else st
  | Action.sectionComplete =>
    if screenOf st = Screen.sectionComplete then
      { st with
        current_section := ""
        current_question_index := 0
        followup_mode := false }
    else st
  | Action.editRequest sec qIndex =>
    if screenOf st = Screen.summary ∧
        (lookupResponse st.responses sec qIndex).isSome then
      { st with editing_mode := true, editing_question := some (sec, qIndex) }
    else st
  | Action.saveChanges newAnswer =>
    if screenOf st = Screen.editing then saveChangesEffect st newAnswer now
    else st
  | Action.cancelEdit =>
    if screenOf st = Screen.editing then cancelEditEffect st
    else st
  | Action.startNew =>
    if screenOf st = Screen.summary then initState st.sections
    else st

/-- The states a single session can be in, starting from a freshly loaded
bank: the initial state and everything obtained from it by redraw-plus-action
transitions, for arbitrary classifier outcomes and clock values. -/
inductive Reachable (bank : Bank) : SessionState → Prop where
  | init : Reachable bank (initState bank)
  | next (st : SessionState) (g : Except Unit String)
      (jl : String → Option PyObj) (now : Nat) (a : Action) :
      Reachable bank st → Reachable bank (step g jl now st a)

/-! ## Exported report (`display_summary` download data) -/

/-- The answer part of a per-question report record: either the committed
answer with its follow-up clarifications and timestamp, or the explicit
`"Not answered"` marker. -/
inductive ReportAnswer where
  | answered (answer : String) (followup_clarifications : List FollowupPair)
      (timestamp : Nat)
  | notAnswered
deriving DecidableEq

/-- One `response_data` record of the download document. -/
structure ReportEntry where
  question : String
  context : Option String
  category : String
  result : ReportAnswer
deriving DecidableEq

/-- The `response_data` record built for question `question` at position
`q_index` of section `sn`, given the section's response dictionary
(`app.py` lines 562-579). -/
def entryFor (sn : String) (inner : List (Nat × Response)) (q_index : Nat)
    (question : Question) : ReportEntry where
  question := question.question
  context := question.context
  category := question.category.getD sn
  result :=
    match inner.lookup q_index with
    | some r => ReportAnswer.answered r.answer r.followup r.timestamp
    | none => ReportAnswer.notAnswered

/-- The `for q_index, question in enumerate(questions)` loop of the download
builder, starting at position `i`. -/
def sectionEntries (sn : String) (inner : List (Nat × Response)) :
    Nat → List Question → List ReportEntry
  | _, [] => []
  | i, q :: qs => entryFor sn inner i q :: sectionEntries sn inner (i + 1) qs

/-- The `questionnaire_responses` part of `download_data`
(`app.py` lines 557-581): one entry list per section of the bank; the
per-question loop runs only inside `if section_name in responses`, so a
section absent from the store contributes an empty list. -/
def buildReport (sections : Bank) (store : ResponseStore) :
    List (String × List ReportEntry) :=
  sections.map (fun p =>
    (p.1,
      match store.lookup p.1 with
      | some inner => sectionEntries p.1 inner 0 p.2
      | none => []))

/-! ## Invariant definitions and concrete fixtures -/

/-- The follow-up sub-state is at its initial, empty values. -/
def followupClear (st : SessionState) : Prop :=
  st.followup_questions = [] ∧ st.followup_answers = [] ∧
  st.current_followup_index = 0 ∧ st.original_answer = ""

/-- The inductive invariant behind claim C8: outside `followup_mode` the
sub-state is empty, and inside it a question is active
(the cursor is strictly inside the active section). -/
def followupInv (st : SessionState) : Prop :=
  (st.followup_mode = false → followupClear st) ∧
  (st.followup_mode = true → st.current_section ≠ "" ∧
    st.current_question_index < (currentQuestions st).length)

/-- Concatenation of a list of strings (used to state the combined-answer
shape). -/
def concatAll : List String → String
  | [] => ""
  | s :: rest => s ++ concatAll rest

/-- A demo question, unanswered. -/
def q0 : Question :=
  { question := "Which ERP modules are in scope?"
    context := none
    category := none
    answered := false }

/-- A demo question whose `answered` flag is set. -/
def qA : Question := { q0 with answered := true }

/-- A second demo question, answered, with context. -/
def qE : Question :=
  { question := "Describe your chart of accounts"
    context := some "General ledger structure"
    category := none
    answered := true }

/-- One-section demo bank with a single unanswered question. -/
def demoBank : Bank := [("Company", [q0])]

/-- One-section demo bank whose single question is already flagged
answered. -/
def answeredBank : Bank := [("Company", [qA])]

/-- Two-section demo bank, partially answered. -/
def wBank : Bank := [("Company", [qE, q0]), ("Security", [q0])]

/-- A stored demo response carrying a follow-up clarification. -/
def respE : Response :=
  { answer := "Ten-digit natural accounts"
    followup := [⟨"Which software?", "Sage"⟩]
    timestamp := 2 }

/-- Demo store answering question 0 of section Company only. -/
def wStore : ResponseStore := [("Company", [(0, respE)])]

/-- A state presenting the main-question interface for question 0 of the
demo bank. -/
def stMain : SessionState := { initState demoBank with current_section := "Company" }

/-- A state in follow-up mode with the single pending follow-up already
answered (the exhausted branch of `display_followup_interface`). -/
def stFollow : SessionState :=
  { initState demoBank with
    current_section := "Company"
    followup_mode := true
    followup_questions := ["Which database engine?"]
    followup_answers := [⟨"Which database engine?", "PostgreSQL 14"⟩]
    current_followup_index := 1
    original_answer := "SQL" }

/-- A state presenting the editing interface for the stored response of
section Company, question 0. -/
def stEdit : SessionState :=
  { initState wBank with
    responses := wStore
    editing_mode := true
    editing_question := some ("Company", 0) }

/-- A classifier output whose JSON remainder is a three-element list: longer
than the two-question cap the spec asserts. -/
def overlongRaw : String :=
  "NEEDS_FOLLOWUP [\"Which SQL database?\", \"Which version?\", \"Which host OS?\"]"

/-- A classifier output with no parseable JSON whose later lines hold three
question-mark lines (exercising the heuristic fallback and its cap). -/
def fallbackRaw : String :=
  "NEEDS_FOLLOWUP\n- Is it hosted on-premise?\n\"Which vendor?\"\nno question here\n- What is the SLA?"

/-- A classifier output whose remainder parses as a JSON object, not a
list. -/
def emptyObjRaw : String := "NEEDS_FOLLOWUP \x7b\x7d"

/-- The three-transition trace behind claim C1: answer the only question
adequately, then fire `Start New Questionnaire` from the summary screen. -/
def resetTrace : SessionState :=
  step (Except.ok "ADEQUATE") jsonLoadsImpl 9
    (step (Except.ok "ADEQUATE") jsonLoadsImpl 5
      (step (Except.ok "ADEQUATE") jsonLoadsImpl 0 (initState demoBank)
        (Action.selectSection "Company"))
      (Action.submit "We use SAP FI and CO"))
    Action.startNew

/-- A reachable state obtained by selecting the demo section and firing
`Back to Sections`. -/
def backTrace : SessionState :=
  step (Except.ok "ADEQUATE") jsonLoadsImpl 2
    (step (Except.ok "ADEQUATE") jsonLoadsImpl 1 (initState demoBank)
      (Action.selectSection "Company"))
    Action.backToSections

/-! ## Helper lemmas: dictionaries -/

theorem lookup_cons_self {κ β : Type} [BEq κ] [LawfulBEq κ] (k : κ) (v : β)
    (l : List (κ × β)) : ((k, v) :: l).lookup k = some v := by
  simp [List.lookup]

theorem lookup_cons_ne {κ β : Type} [BEq κ] [LawfulBEq κ] (k k' : κ) (v : β)
    (l : List (κ × β)) (hne : k' ≠ k) :
    ((k, v) :: l).lookup k' = l.lookup k' := by
  simp only [List.lookup]
  rw [show (k' == k) = false by simpa using hne]

theorem lookup_updAssoc_self {κ β : Type} [BEq κ] [LawfulBEq κ] (k : κ) (v : β)
    (l : List (κ × β)) : (updAssoc k v l).lookup k = some v := by
  induction l with
  | nil => simp [updAssoc, List.lookup]
  | cons p rest ih =>
    by_cases h : p.1 = k
    · simp [updAssoc, h, List.lookup]
    · obtain ⟨a, b⟩ := p
      simp only at h
      simp only [updAssoc, beq_iff_eq, h, if_false]
      rw [lookup_cons_ne _ _ _ _ (Ne.symm h)]
      exact ih

theorem lookup_updAssoc_ne {κ β : Type} [BEq κ] [LawfulBEq κ] (k k' : κ) (v : β)
    (l : List (κ × β)) (hne : k' ≠ k) :
    (updAssoc k v l).lookup k' = l.lookup k' := by
  induction l with
  | nil =>
    simp only [updAssoc, List.lookup]
    rw [show (k' == k) = false by simpa using hne]
  | cons p rest ih =>
    obtain ⟨a, b⟩ := p
    by_cases h : a = k
    · subst h
      simp only [updAssoc, beq_iff_eq, if_true]
      rw [lookup_cons_ne _ _ _ _ hne, lookup_cons_ne _ _ _ _ hne]
    · simp only [updAssoc, beq_iff_eq, h, if_false]
      by_cases h' : k' = a
      · subst h'
        rw [lookup_cons_self, lookup_cons_self]
      · rw [lookup_cons_ne _ _ _ _ h', lookup_cons_ne _ _ _ _ h']
        exact ih

theorem lookup_modAssoc_self {κ β : Type} [BEq κ] [LawfulBEq κ] (k : κ)
    (f : β → β) (l : List (κ × β)) :
    (modAssoc k f l).lookup k = (l.lookup k).map f := by
  induction l with
  | nil => simp [modAssoc, List.lookup]
  | cons p rest ih =>
    obtain ⟨a, b⟩ := p
    by_cases h : a = k
    · subst h
      simp only [modAssoc, beq_iff_eq, if_true]
      rw [lookup_cons_self, lookup_cons_self]
      rfl
    · simp only [modAssoc, beq_iff_eq, h, if_false]
      rw [lookup_cons_ne _ _ _ _ (Ne.symm h), lookup_cons_ne _ _ _ _ (Ne.symm h)]
      exact ih

theorem lookup_modAssoc_ne {κ β : Type} [BEq κ] [LawfulBEq κ] (k k' : κ)
    (f : β → β) (l : List (κ × β)) (hne : k' ≠ k) :
    (modAssoc k f l).lookup k' = l.lookup k' := by
  induction l with
  | nil => simp [modAssoc]
  | cons p rest ih =>
    obtain ⟨a, b⟩ := p
    by_cases h : a = k
    · subst h
      simp only [modAssoc, beq_iff_eq, if_true]
      rw [lookup_cons_ne _ _ _ _ hne, lookup_cons_ne _ _ _ _ hne]
    · simp only [modAssoc, beq_iff_eq, h, if_false]
      by_cases h' : k' = a
      · subst h'
        rw [lookup_cons_self, lookup_cons_self]
      · rw [lookup_cons_ne _ _ _ _ h', lookup_cons_ne _ _ _ _ h']
        exact ih

theorem lookup_append_of_none {κ β : Type} [BEq κ] [LawfulBEq κ] (k : κ)
    (l l' : List (κ × β)) (h : l.lookup k = none) :
    (l ++ l').lookup k = l'.lookup k := by
  induction l with
  | nil => simp
  | cons p rest ih =>
    obtain ⟨a, b⟩ := p
    by_cases h' : k = a
    · subst h'
      rw [lookup_cons_self] at h
      cases h
    · rw [List.cons_append, lookup_cons_ne _ _ _ _ h']
      rw [lookup_cons_ne _ _ _ _ h'] at h
      exact ih h

theorem lookupResponse_storeSet_self (store : ResponseStore) (sec : String)
    (i : Nat) (r : Response) :
    lookupResponse (storeSet store sec i r) sec i = some r := by
  unfold storeSet lookupResponse
  cases h : store.lookup sec with
  | some inner =>
    rw [lookup_modAssoc_self, h]
    simp [lookup_updAssoc_self]
  | none =>
    rw [lookup_append_of_none sec store _ h]
    simp [List.lookup]

/-! ## Helper lemmas: strings -/

theorem foldl_append_concatAll {α : Type} (f : α → String) (l : List α) :
    ∀ init : String,
      l.foldl (fun acc x => acc ++ f x) init = init ++ concatAll (l.map f) := by
  induction l with
  | nil => intro init; simp [concatAll, String.append_empty]
  | cons x rest ih =>
    intro init
    simp only [List.foldl_cons, List.map_cons, concatAll]
    rw [ih (init ++ f x), String.append_assoc]

theorem needs_marker_not_adequate {l : List Char}
    (hn : List.isPrefixOf "NEEDS_FOLLOWUP".data l = true)
    (ha : List.isPrefixOf "ADEQUATE".data l = true) : False := by
  have e1 : "NEEDS_FOLLOWUP".data = 'N' :: "EEDS_FOLLOWUP".data := rfl
  have e2 : "ADEQUATE".data = 'A' :: "DEQUATE".data := rfl
  rw [e1] at hn
  rw [e2] at ha
  cases l with
  | nil => simp [List.isPrefixOf] at hn
  | cons c cs =>
    simp only [List.isPrefixOf, Bool.and_eq_true, beq_iff_eq] at hn ha
    have : ('N' : Char) = 'A' := hn.1.trans ha.1.symm
    exact absurd this (by decide)

/-! ## Helper lemmas: screen dispatch -/

theorem screenOf_mainQuestion_facts {st : SessionState}
    (h : screenOf st = Screen.mainQuestion) :
    st.editing_mode = false ∧ st.current_section ≠ "" ∧
    st.current_question_index < (currentQuestions st).length ∧
    st.followup_mode = false := by
  unfold screenOf at h
  split_ifs at h with h1 h2 h3 h4 h5
  exact ⟨by simpa using h2, h3, by omega, by simpa using h5⟩

theorem screenOf_followup_facts {st : SessionState}
    (h : screenOf st = Screen.followup) :
    st.followup_mode = true ∧ st.editing_mode = false ∧
    st.current_section ≠ "" ∧
    st.current_question_index < (currentQuestions st).length := by
  unfold screenOf at h
  split_ifs at h with h1 h2 h3 h4 h5
  exact ⟨h5, by simpa using h2, h3, by omega⟩

theorem screenOf_sectionSelection_facts {st : SessionState}
    (h : screenOf st = Screen.sectionSelection) :
    st.editing_mode = false ∧ st.current_section = "" := by
  unfold screenOf at h
  split_ifs at h with h1 h2 h3
  exact ⟨by simpa using h2, h3⟩

theorem screenOf_sectionComplete_facts {st : SessionState}
    (h : screenOf st = Screen.sectionComplete) :
    st.editing_mode = false ∧ st.current_section ≠ "" ∧
    (currentQuestions st).length ≤ st.current_question_index := by
  unfold screenOf at h
  split_ifs at h with h1 h2 h3 h4
  exact ⟨by simpa using h2, h3, h4⟩

/-! ## Claim C6 -/

/-- C6: the combined answer rendered in the exhausted-followups state is a
deterministic function of the original answer and the collected pairs: the
original answer, then the fixed "Additional Details" header, then the
concatenation of exactly one formatted line per collected pair, in
collection order. -/
theorem C6_combined_answer_shape (original : String) (fas : List FollowupPair) :
    combine_answers original fas =
      original ++ "\n\nAdditional Details:\n" ++
        concatAll (fas.map followupLine) := by
  unfold combine_answers
  exact foldl_append_concatAll followupLine fas _

/-! ## Claim C2 -/

/-- C2 counterexample: on the classifier output
`NEEDS_FOLLOWUP ["Which SQL database?", "Which version?", "Which host OS?"]`
(whose remainder parses as a JSON list of three strings) `validate_response`
returns a NeedsFollowup verdict carrying all three questions — the claimed
two-question cap does not hold on the JSON-parse path. -/
theorem C2_counterexample :
    validate_response true (Except.ok overlongRaw) jsonLoadsImpl =
      (false, ["Which SQL database?", "Which version?", "Which host OS?"]) ∧
    ¬ (validate_response true (Except.ok overlongRaw) jsonLoadsImpl).2.length ≤ 2 := by
  constructor
  · decide
  · decide

/-- C2 (amended): the verdict is either Adequate with an empty follow-up
list, or NeedsFollowup; the follow-up list is the JSON-parsed list passed
through uncapped whenever the remainder parses as a list, and the cap of at
most 2 questions holds only on the heuristic-fallback path taken when the
JSON parse fails. -/
theorem C2_verdict_shape (mp : Bool) (g : Except Unit String)
    (jl : String → Option PyObj) :
    ((validate_response mp g jl).1 = true → (validate_response mp g jl).2 = []) ∧
    (∀ raw, g = Except.ok raw → jl (jsonPartOf (pyStrip raw)) = none →
      (validate_response mp g jl).2.length ≤ 2) ∧
    (∀ raw xs, mp = true → g = Except.ok raw →
      strStartsWith "NEEDS_FOLLOWUP" (pyStrip raw) = true →
      jl (jsonPartOf (pyStrip raw)) = some (PyObj.pyList xs) →
      validate_response mp g jl = (false, xs)) := by
  refine ⟨?_, ?_, ?_⟩
  · have hcases : validate_response mp g jl = (true, []) ∨
        (validate_response mp g jl).1 = false := by
      unfold validate_response
      split_ifs with h1
      · exact Or.inl rfl
      · cases g with
        | error e => exact Or.inl rfl
        | ok raw =>
          simp only
          split_ifs with h2 h3
          · exact Or.inl rfl
          · cases hj : jl (jsonPartOf (pyStrip raw)) with
            | none => exact Or.inr rfl
            | some o => cases o <;> exact Or.inr rfl
          · exact Or.inl rfl
    intro h
    rcases hcases with hc | hc
    · rw [hc]
    · rw [h] at hc
      cases hc
  · intro raw hg hj
    subst hg
    unfold validate_response
    simp only
    split_ifs with h1 h2 h3
    · simp
    · simp
    · rw [hj]
      simp only [fallbackQuestions]
      exact List.length_take_le 2 _
    · simp
  · intro raw xs hmp hg hstart hj
    subst hmp hg
    unfold validate_response
    have hadq : strStartsWith "ADEQUATE" (pyStrip raw) = false := by
      cases h : strStartsWith "ADEQUATE" (pyStrip raw)
      · rfl
      · exact (needs_marker_not_adequate
          (by simpa [strStartsWith] using hstart)
          (by simpa [strStartsWith] using h)).elim
    simp only [Bool.true_eq_false, if_false, hadq, hstart, if_true, hj]
    rfl

/-- C2 witness: a concrete run of the heuristic-fallback path (three
question-mark lines after the marker, JSON parse failing) stays within the
two-question cap. -/
theorem C2_verdict_shape_witness :
    (validate_response true (Except.ok fallbackRaw)
      (fun _ => none)).2.length ≤ 2 :=
  (C2_verdict_shape true (Except.ok fallbackRaw) (fun _ => none)).2.1
    fallbackRaw rfl rfl

/-! ## Claim C10 -/

/-- C10: on a classifier output whose remainder after `NEEDS_FOLLOWUP`
parses as JSON but is not a list (here an object), `validate_response`
returns NeedsFollowup with an empty question list; submitting under that
outcome enters follow-up mode with zero pending follow-ups, the next redraw
presents the follow-up screen already in its exhausted branch, no response
is committed, and the rendered combined answer is the original answer
followed by the bare header with no detail lines. -/
theorem C10_nonlist_json_empty_followups :
    validate_response true (Except.ok emptyObjRaw) jsonLoadsImpl = (false, []) ∧
    (let st' := step (Except.ok emptyObjRaw) jsonLoadsImpl 3 stMain
        (Action.submit "We use SQL")
     st'.followup_mode = true ∧
     st'.followup_questions = [] ∧
     screenOf (updateCompleted st') = Screen.followup ∧
     ¬ st'.current_followup_index < st'.followup_questions.length ∧
     lookupResponse st'.responses "Company" 0 = none ∧
     combine_answers st'.original_answer st'.followup_answers =
       "We use SQL" ++ "\n\nAdditional Details:\n") := by
  refine ⟨by decide, by decide, by decide, by decide, by decide, by decide,
    by decide⟩

/-! ## Claim C1 -/

/-- C1 (code-bug evidence): after an adequate answer to the only question of
the demo bank and the explicit `Start New Questionnaire` reset, the reached
state keeps the question's `answered` flag set although the response store
holds no Response for (Company, 0) — the reset deletes every session key
except `sections`, and the flags live inside `sections`, so the claimed
flag/store equivalence is violated immediately after the reset. -/
theorem C1_reset_divergence :
    Reachable demoBank resetTrace ∧
    ((resetTrace.sections.lookup "Company").getD []).map (fun q => q.answered)
      = [true] ∧
    lookupResponse resetTrace.responses "Company" 0 = none := by
  refine ⟨?_, by decide, by decide⟩
  unfold resetTrace
  exact Reachable.next _ _ _ _ _
    (Reachable.next _ _ _ _ _
      (Reachable.next _ _ _ _ _ Reachable.init))

/-! ## Claim C4 -/

/-- C4 counterexample: selecting a section whose every question is flagged
answered leaves the cursor at its previous value (here 0), not at the
section length (here 1) — the scan loop of the `Start` handler assigns the
cursor only when it finds an unanswered question. -/
theorem C4_counterexample :
    (selectSectionEffect (initState answeredBank) "Company").current_section
      = "Company" ∧
    (selectSectionEffect (initState answeredBank) "Company").current_question_index
      = 0 ∧
    (currentQuestions (selectSectionEffect (initState answeredBank) "Company")).length
      = 1 ∧
    (selectSectionEffect (initState answeredBank) "Company").current_question_index
      ≠ (currentQuestions (selectSectionEffect (initState answeredBank) "Company")).length := by
  refine ⟨by decide, by decide, by decide, by decide⟩

/-- C4 (amended): the `Start` handler sets `activeSection` to the chosen
section and sets `activeQuestionIndex` to the position of the first question
whose `answered` flag is unset (linear scan from 0); when every question of
the section is flagged answered the cursor keeps its previous value instead
of becoming the section length. -/
theorem C4_select_section (st : SessionState) (name : String)
    (qs : List Question) (hq : st.sections.lookup name = some qs) :
    (selectSectionEffect st name).current_section = name ∧
    (∀ i (h : i < qs.length), (qs.get ⟨i, h⟩).answered = false →
      (∀ j (hj : j < i), (qs.get ⟨j, Nat.lt_trans hj h⟩).answered = true) →
      (selectSectionEffect st name).current_question_index = i) ∧
    ((∀ q ∈ qs, q.answered = true) →
      (selectSectionEffect st name).current_question_index
        = st.current_question_index) := by
  refine ⟨?_, ?_, ?_⟩
  · simp only [selectSectionEffect]
    split <;> rfl
  · intro i h hno hall
    have hfind : qs.findIdx? (fun q => !q.answered) = some i := by
      rw [List.findIdx?_eq_some_iff_getElem]
      refine ⟨h, ?_, ?_⟩
      · simpa [List.get_eq_getElem] using hno
      · intro j hj
        simpa [List.get_eq_getElem] using hall j hj
    simp only [selectSectionEffect, hq, Option.getD_some, hfind]
  · intro hall
    have hfind : qs.findIdx? (fun q => !q.answered) = none := by
      rw [List.findIdx?_eq_none_iff]
      intro x hx
      simp [hall x hx]
    simp only [selectSectionEffect, hq, Option.getD_some, hfind]

/-- C4 witness: on the demo bank with its single unanswered question the
handler resumes at index 0; on the fully answered bank the cursor keeps its
previous value. -/
theorem C4_select_section_witness :
    (selectSectionEffect (initState demoBank) "Company").current_question_index
      = 0 ∧
    (selectSectionEffect (initState answeredBank) "Company").current_question_index
      = (initState answeredBank).current_question_index := by
  constructor
  · exact (C4_select_section (initState demoBank) "Company" [q0] rfl).2.1 0
      (by decide) (by decide) (fun j hj => absurd hj (Nat.not_lt_zero j))
  · exact (C4_select_section (initState answeredBank) "Company" [qA] rfl).2.2
      (by decide)

/-! ## Further store lemmas (for C5 and C7) -/

theorem lookupResponse_mod_self (store : ResponseStore) (es : String) (ei : Nat)
    (f : Response → Response) :
    lookupResponse
        (modAssoc es (fun inner => modAssoc ei f inner) store) es ei
      = (lookupResponse store es ei).map f := by
  unfold lookupResponse
  rw [lookup_modAssoc_self]
  cases store.lookup es with
  | none => rfl
  | some inner => simp [lookup_modAssoc_self]

theorem lookupResponse_mod_ne (store : ResponseStore) (es : String) (ei : Nat)
    (f : Response → Response) (s : String) (i : Nat) (h : s ≠ es ∨ i ≠ ei) :
    lookupResponse
        (modAssoc es (fun inner => modAssoc ei f inner) store) s i
      = lookupResponse store s i := by
  unfold lookupResponse
  rcases h with h | h
  · rw [lookup_modAssoc_ne _ _ _ _ h]
  · by_cases hs : s = es
    · subst hs
      rw [lookup_modAssoc_self]
      cases store.lookup s with
      | none => rfl
      | some inner => simp [lookup_modAssoc_ne _ _ _ _ h]
    · rw [lookup_modAssoc_ne _ _ _ _ hs]

/-! ## Claim C5 -/

/-- C5: when the classifier call raises (or its output is unrecognized),
`validate_response` returns the Adequate verdict with an empty follow-up
list; submitting a non-blank answer under a raised classifier call therefore
commits the trimmed answer with an empty `followup` list and the current
timestamp, advances the cursor by exactly one, and stays out of follow-up
mode. -/
theorem C5_fail_open (jl : String → Option PyObj) (e : Unit) (now : Nat)
    (st : SessionState) (answer : String)
    (hscreen : screenOf (updateCompleted st) = Screen.mainQuestion)
    (hne : pyStrip answer ≠ "") :
    validate_response true (Except.error e) jl = (true, []) ∧
    (∀ raw, strStartsWith "ADEQUATE" (pyStrip raw) = false →
      strStartsWith "NEEDS_FOLLOWUP" (pyStrip raw) = false →
      validate_response true (Except.ok raw) jl = (true, [])) ∧
    lookupResponse
        (step (Except.error e) jl now st (Action.submit answer)).responses
        st.current_section st.current_question_index
      = some ⟨pyStrip answer, [], now⟩ ∧
    (step (Except.error e) jl now st (Action.submit answer)).current_question_index
      = st.current_question_index + 1 ∧
    (step (Except.error e) jl now st (Action.submit answer)).followup_mode
      = false := by
  have hstep : step (Except.error e) jl now st (Action.submit answer) =
      { save_response (updateCompleted st) st.current_section
          st.current_question_index (pyStrip answer) [] now with
        current_question_index := st.current_question_index + 1 } := by
    simp only [step]
    rw [if_pos hscreen, if_pos hne]
    rfl
  refine ⟨rfl, ?_, ?_, ?_, ?_⟩
  · intro raw hA hN
    simp [validate_response, hA, hN]
  · rw [hstep]
    exact lookupResponse_storeSet_self st.responses _ _ _
  · rw [hstep]
  · rw [hstep]
    exact (screenOf_mainQuestion_facts hscreen).2.2.2

/-- C5 witness: a concrete raised-classifier submission on the demo state
commits the trimmed answer and advances the cursor. -/
theorem C5_fail_open_witness :
    lookupResponse
        (step (Except.error ()) jsonLoadsImpl 4 stMain
          (Action.submit " PostgreSQL 14 ")).responses "Company" 0
      = some ⟨"PostgreSQL 14", [], 4⟩ ∧
    (step (Except.error ()) jsonLoadsImpl 4 stMain
      (Action.submit " PostgreSQL 14 ")).current_question_index = 1 := by
  have h := C5_fail_open jsonLoadsImpl () 4 stMain " PostgreSQL 14 "
    (by decide) (by decide)
  exact ⟨h.2.2.1.trans (by decide), h.2.2.2.1⟩

/-! ## Claim C7 -/

/-- C7: with the editing screen shown for the response at `(es, ei)`, saving
non-blank text overwrites only that response's `answer` (with the trimmed
text) and `timestamp` (with the current clock), keeps its `followup` field
and every other stored response unchanged, and exits editing mode; cancel
exits editing mode with the whole store untouched; and both handlers are
independent of the classifier outcome (editing never invokes the
classifier). -/
theorem C7_editing_frame (st : SessionState) (now : Nat)
    (g g' : Except Unit String) (jl jl' : String → Option PyObj)
    (t es : String) (ei : Nat)
    (hscreen : screenOf (updateCompleted st) = Screen.editing)
    (heq : st.editing_question = some (es, ei))
    (ht : pyStrip t ≠ "") :
    lookupResponse (step g jl now st (Action.saveChanges t)).responses es ei
      = (lookupResponse st.responses es ei).map
          (fun r => { r with answer := pyStrip t, timestamp := now }) ∧
    (∀ r, lookupResponse st.responses es ei = some r →
      lookupResponse (step g jl now st (Action.saveChanges t)).responses es ei
        = some { answer := pyStrip t, followup := r.followup, timestamp := now }) ∧
    (∀ s i, s ≠ es ∨ i ≠ ei →
      lookupResponse (step g jl now st (Action.saveChanges t)).responses s i
        = lookupResponse st.responses s i) ∧
    (step g jl now st (Action.saveChanges t)).editing_mode = false ∧
    (step g jl now st (Action.saveChanges t)).editing_question = none ∧
    step g jl now st (Action.saveChanges t)
      = step g' jl' now st (Action.saveChanges t) ∧
    (step g jl now st Action.cancelEdit).responses = st.responses ∧
    (step g jl now st Action.cancelEdit).editing_mode = false ∧
    (step g jl now st Action.cancelEdit).editing_question = none ∧
    step g jl now st Action.cancelEdit = step g' jl' now st Action.cancelEdit := by
  have hq : (updateCompleted st).editing_question = some (es, ei) := heq
  have hstep : step g jl now st (Action.saveChanges t) =
      { updateCompleted st with
        responses := modAssoc es (fun inner => modAssoc ei
          (fun r => { r with answer := pyStrip t, timestamp := now }) inner)
          st.responses
        editing_mode := false
        editing_question := none } := by
    simp only [step]
    rw [if_pos hscreen]
    simp only [saveChangesEffect, hq]
    rw [if_pos ht]
    rfl
  have hresp : (step g jl now st (Action.saveChanges t)).responses
      = modAssoc es (fun inner => modAssoc ei
          (fun r => { r with answer := pyStrip t, timestamp := now }) inner)
        st.responses := by
    rw [hstep]
  have hcancel : step g jl now st Action.cancelEdit =
      { updateCompleted st with editing_mode := false, editing_question := none } := by
    simp only [step]
    rw [if_pos hscreen]
    rfl
  refine ⟨?_, ?_, ?_, ?_, ?_, rfl, ?_, ?_, ?_, rfl⟩
  · rw [hresp]
    exact lookupResponse_mod_self st.responses es ei _
  · intro r hr
    rw [hresp, lookupResponse_mod_self, hr]
    rfl
  · intro s i hsi
    rw [hresp]
    exact lookupResponse_mod_ne st.responses es ei _ s i hsi
  · rw [hstep]
  · rw [hstep]
  · rw [hcancel]
    rfl
  · rw [hcancel]
  · rw [hcancel]

/-- C7 witness: a concrete save on the demo editing state rewrites the
answer and timestamp, keeps the follow-up clarifications, and leaves editing
mode. -/
theorem C7_editing_frame_witness :
    lookupResponse
        (step (Except.ok "ADEQUATE") jsonLoadsImpl 7 stEdit
          (Action.saveChanges "Twelve-digit accounts")).responses "Company" 0
      = some ⟨"Twelve-digit accounts", [⟨"Which software?", "Sage"⟩], 7⟩ ∧
    (step (Except.ok "ADEQUATE") jsonLoadsImpl 7 stEdit
      (Action.saveChanges "Twelve-digit accounts")).editing_mode = false ∧
    (step (Except.ok "ADEQUATE") jsonLoadsImpl 7 stEdit
      Action.cancelEdit).responses = stEdit.responses := by
  have h := C7_editing_frame stEdit 7 (Except.ok "ADEQUATE")
    (Except.ok "ADEQUATE") jsonLoadsImpl jsonLoadsImpl
    "Twelve-digit accounts" "Company" 0 (by decide) rfl (by decide)
  exact ⟨h.1.trans (by decide), h.2.2.2.1, h.2.2.2.2.2.2.1⟩

/-! ## Claim C3 -/

/-- C3: the transition entering follow-up mode commits nothing and leaves
the cursor in place; while the follow-up screen is shown, every action other
than UseOriginal and AcceptFinal leaves the response store unchanged; and
StartOver (available in the exhausted branch) clears the entire follow-up
sub-state without committing a response and without moving the active
question index or section. -/
theorem C3_followup_no_commit (st : SessionState) (g : Except Unit String)
    (jl : String → Option PyObj) (now : Nat) :
    (∀ answer, screenOf (updateCompleted st) = Screen.mainQuestion →
      pyStrip answer ≠ "" → (validate_response true g jl).1 = false →
      (step g jl now st (Action.submit answer)).responses = st.responses ∧
      (step g jl now st (Action.submit answer)).current_question_index
        = st.current_question_index ∧
      (step g jl now st (Action.submit answer)).followup_mode = true) ∧
    (∀ a, screenOf (updateCompleted st) = Screen.followup →
      a ≠ Action.useOriginal → a ≠ Action.acceptFinal →
      (step g jl now st a).responses = st.responses) ∧
    (screenOf (updateCompleted st) = Screen.followup →
      ¬ st.current_followup_index < st.followup_questions.length →
      (step g jl now st Action.startOver).responses = st.responses ∧
      (step g jl now st Action.startOver).current_question_index
        = st.current_question_index ∧
      (step g jl now st Action.startOver).current_section
        = st.current_section ∧
      (step g jl now st Action.startOver).followup_mode = false ∧
      (step g jl now st Action.startOver).followup_questions = [] ∧
      (step g jl now st Action.startOver).followup_answers = [] ∧
      (step g jl now st Action.startOver).current_followup_index = 0 ∧
      (step g jl now st Action.startOver).original_answer = "") := by
  refine ⟨?_, ?_, ?_⟩
  · intro answer hscreen hne hval
    have hstep : step g jl now st (Action.submit answer) =
        { updateCompleted st with
          followup_mode := true
          followup_questions := (validate_response true g jl).2
          followup_answers := []
          current_followup_index := 0
          original_answer := pyStrip answer } := by
      simp only [step]
      rw [if_pos hscreen, if_pos hne, if_neg (by simp [hval])]
    rw [hstep]
    exact ⟨rfl, rfl, rfl⟩
  · intro a hscreen hu ha
    cases a <;> simp only [step] <;> split_ifs with h1 h2 <;>
      first
        | rfl
        | exact absurd rfl hu
        | exact absurd rfl ha
        | (simp [hscreen] at h1; done)
  · intro hscreen hcur
    have hstep : step g jl now st Action.startOver =
        reset_followup_state (updateCompleted st) := by
      simp only [step]
      rw [if_pos ⟨hscreen, hcur⟩]
    rw [hstep]
    exact ⟨rfl, rfl, rfl, rfl, rfl, rfl, rfl, rfl⟩

/-- C3 witness: entering follow-up mode on the demo main-question state
commits nothing, and StartOver on the exhausted demo follow-up state clears
the sub-state while committing nothing and keeping the cursor. -/
theorem C3_followup_no_commit_witness :
    (step (Except.ok overlongRaw) jsonLoadsImpl 4 stMain
      (Action.submit "SQL")).responses = stMain.responses ∧
    (step (Except.ok overlongRaw) jsonLoadsImpl 4 stMain
      (Action.submit "SQL")).followup_mode = true ∧
    (step (Except.ok "ADEQUATE") jsonLoadsImpl 6 stFollow
      Action.startOver).responses = stFollow.responses ∧
    (step (Except.ok "ADEQUATE") jsonLoadsImpl 6 stFollow
      Action.startOver).current_question_index
      = stFollow.current_question_index ∧
    (step (Except.ok "ADEQUATE") jsonLoadsImpl 6 stFollow
      Action.startOver).followup_questions = [] := by
  have h1 := (C3_followup_no_commit stMain (Except.ok overlongRaw)
    jsonLoadsImpl 4).1 "SQL" (by decide) (by decide) (by decide)
  have h3 := (C3_followup_no_commit stFollow (Except.ok "ADEQUATE")
    jsonLoadsImpl 6).2.2 (by decide) (by decide)
  exact ⟨h1.1, h1.2.2, h3.1, h3.2.1, h3.2.2.2.2.1⟩

/-! ## Claim C9 -/

/-- C9 counterexample: with an empty response store, the exported report
maps section Company (which has one question) to an empty entry list — the
per-question `"Not answered"` entry the claim requires does not exist,
because the per-question export loop only runs for sections present in the
store. -/
theorem C9_counterexample :
    buildReport demoBank [] = [("Company", [])] ∧
    ((buildReport demoBank []).lookup "Company").getD [] = [] ∧
    [q0].length = 1 := by
  refine ⟨by decide, by decide, by decide⟩

theorem sectionEntries_get? (sn : String) (inner : List (Nat × Response)) :
    ∀ (qs : List Question) (j i : Nat),
      (sectionEntries sn inner j qs).get? i
        = (qs.get? i).map (fun q => entryFor sn inner (j + i) q) := by
  intro qs
  induction qs with
  | nil => intro j i; simp [sectionEntries]
  | cons q rest ih =>
    intro j i
    cases i with
    | zero => simp [sectionEntries]
    | succ i =>
      simp only [sectionEntries, List.get?_cons_succ, ih (j + 1) i]
      rw [Nat.add_assoc, Nat.add_comm 1 i]

/-- C9 (amended): for every section of the bank that is present in the
response store, the report contains that section's name paired with one
entry per question, in order; the entry at position `i` carries the question
text, context, category defaulting to the section name, and either the
stored answer with its follow-up pairs and timestamp or the `"Not answered"`
marker, according to whether a response exists at index `i`.  A section with
no stored responses at all is instead exported with an empty entry list. -/
theorem C9_report_shape (bank : Bank) (store : ResponseStore) (sn : String)
    (qs : List Question) (inner : List (Nat × Response))
    (hmem : (sn, qs) ∈ bank) (hinner : store.lookup sn = some inner) :
    ((sn, sectionEntries sn inner 0 qs) ∈ buildReport bank store) ∧
    (∀ i, i < qs.length → ∃ q, qs.get? i = some q ∧
      (sectionEntries sn inner 0 qs).get? i = some
        { question := q.question
          context := q.context
          category := q.category.getD sn
          result :=
            match inner.lookup i with
            | some r => ReportAnswer.answered r.answer r.followup r.timestamp
            | none => ReportAnswer.notAnswered }) ∧
    (∀ sn' qs', (sn', qs') ∈ bank → store.lookup sn' = none →
      ((sn', ([] : List ReportEntry)) ∈ buildReport bank store)) := by
  refine ⟨?_, ?_, ?_⟩
  · have h := List.mem_map_of_mem
      (fun p : String × List Question =>
        (p.1, match store.lookup p.1 with
              | some inner => sectionEntries p.1 inner 0 p.2
              | none => ([] : List ReportEntry))) hmem
    simpa [buildReport, hinner] using h
  · intro i hi
    have hq : qs.get? i = some (qs.get ⟨i, hi⟩) := List.get?_eq_get hi
    refine ⟨qs.get ⟨i, hi⟩, hq, ?_⟩
    rw [sectionEntries_get? sn inner qs 0 i, hq]
    simp [entryFor, Nat.zero_add]
  · intro sn' qs' hmem' hnone
    have h := List.mem_map_of_mem
      (fun p : String × List Question =>
        (p.1, match store.lookup p.1 with
              | some inner => sectionEntries p.1 inner 0 p.2
              | none => ([] : List ReportEntry))) hmem'
    simpa [buildReport, hnone] using h

/-- C9 witness: in the two-section demo, section Company (present in the
store) exports an answered entry at 0 and a `"Not answered"` entry at 1,
while section Security (absent from the store) exports an empty list. -/
theorem C9_report_shape_witness :
    (("Company", sectionEntries "Company" [(0, respE)] 0 [qE, q0])
      ∈ buildReport wBank wStore) ∧
    (sectionEntries "Company" [(0, respE)] 0 [qE, q0]).get? 1 = some
      { question := q0.question
        context := q0.context
        category := "Company"
        result := ReportAnswer.notAnswered } ∧
    (("Security", ([] : List ReportEntry)) ∈ buildReport wBank wStore) := by
  obtain ⟨h1, h2, h3⟩ := C9_report_shape wBank wStore "Company" [qE, q0]
    [(0, respE)] (by simp [wBank]) rfl
  refine ⟨h1, ?_, h3 "Security" [q0] (by simp [wBank]) rfl⟩
  obtain ⟨q, hq, he⟩ := h2 1 (by decide)
  have hqq : q = q0 := by
    have : some q0 = some q := (by decide : ([qE, q0].get? 1 = some q0)).symm.trans hq
    exact (Option.some.inj this).symm
  subst hqq
  exact he.trans (by decide)

/-! ## Claim C8 -/

theorem selectSectionEffect_preserves (s : SessionState) (name : String) :
    (selectSectionEffect s name).followup_mode = s.followup_mode ∧
    (selectSectionEffect s name).followup_questions = s.followup_questions ∧
    (selectSectionEffect s name).followup_answers = s.followup_answers ∧
    (selectSectionEffect s name).current_followup_index
      = s.current_followup_index ∧
    (selectSectionEffect s name).original_answer = s.original_answer := by
  simp only [selectSectionEffect]
  split <;> exact ⟨rfl, rfl, rfl, rfl, rfl⟩

theorem saveChangesEffect_preserves (s : SessionState) (t : String) (now : Nat) :
    (saveChangesEffect s t now).followup_mode = s.followup_mode ∧
    (saveChangesEffect s t now).followup_questions = s.followup_questions ∧
    (saveChangesEffect s t now).followup_answers = s.followup_answers ∧
    (saveChangesEffect s t now).current_followup_index
      = s.current_followup_index ∧
    (saveChangesEffect s t now).original_answer = s.original_answer ∧
    (saveChangesEffect s t now).current_section = s.current_section ∧
    (saveChangesEffect s t now).current_question_index
      = s.current_question_index ∧
    (saveChangesEffect s t now).sections = s.sections := by
  unfold saveChangesEffect
  split
  · exact ⟨rfl, rfl, rfl, rfl, rfl, rfl, rfl, rfl⟩
  · split_ifs <;> exact ⟨rfl, rfl, rfl, rfl, rfl, rfl, rfl, rfl⟩

theorem followupInv_init (bank : Bank) : followupInv (initState bank) :=
  ⟨fun _ => ⟨rfl, rfl, rfl, rfl⟩, fun h => nomatch h⟩

theorem followupInv_step (g : Except Unit String) (jl : String → Option PyObj)
    (now : Nat) (st : SessionState) (a : Action) (h : followupInv st) :
    followupInv (step g jl now st a) := by
  have h' : followupInv (updateCompleted st) := h
  cases a with
  | selectSection name =>
    simp only [step]
    split_ifs with hg
    · have hcs : (updateCompleted st).current_section = "" :=
        (screenOf_sectionSelection_facts hg.1).2
      have hfm : (updateCompleted st).followup_mode = false := by
        cases hfmc : (updateCompleted st).followup_mode
        · rfl
        · exact absurd hcs (h'.2 hfmc).1
      have hclear := h'.1 hfm
      obtain ⟨e1, e2, e3, e4, e5⟩ :=
        selectSectionEffect_preserves (updateCompleted st) name
      constructor
      · intro _
        exact ⟨e2.trans hclear.1, e3.trans hclear.2.1,
          e4.trans hclear.2.2.1, e5.trans hclear.2.2.2⟩
      · intro hfm2
        rw [e1] at hfm2
        exact absurd (hfm.symm.trans hfm2) (by decide)
    · exact h'
  | submit answer =>
    simp only [step]
    split_ifs with hg hne hv
    · obtain ⟨hed, hcs, hlt, hfm⟩ := screenOf_mainQuestion_facts hg
      exact ⟨fun _ => h'.1 hfm,
        fun hfm2 => absurd (hfm.symm.trans hfm2) (by decide)⟩
    · obtain ⟨hed, hcs, hlt, hfm⟩ := screenOf_mainQuestion_facts hg
      constructor
      · intro hfm2
        simp at hfm2
      · intro _
        exact ⟨hcs, hlt⟩
    · exact h'
    · exact h'
  | skip =>
    simp only [step]
    split_ifs with hg
    · obtain ⟨hed, hcs, hlt, hfm⟩ := screenOf_mainQuestion_facts hg
      exact ⟨fun _ => h'.1 hfm,
        fun hfm2 => absurd (hfm.symm.trans hfm2) (by decide)⟩
    · exact h'
  | backToSections =>
    simp only [step]
    split_ifs with hg
    · obtain ⟨hed, hcs, hlt, hfm⟩ := screenOf_mainQuestion_facts hg
      exact ⟨fun _ => h'.1 hfm, fun hfm2 => nomatch hfm2⟩
    · exact h'
  | nextFollowup answer =>
    simp only [step]
    split_ifs with hg hne
    · obtain ⟨hfm, hed, hcs, hlt⟩ := screenOf_followup_facts hg.1
      constructor
      · intro hfm2
        exact absurd (hfm.symm.trans hfm2) (by decide)
      · intro _
        exact ⟨hcs, hlt⟩
    · exact h'
    · exact h'
  | useOriginal =>
    simp only [step]
    split_ifs with hg
    · exact ⟨fun _ => ⟨rfl, rfl, rfl, rfl⟩, fun hfm2 => nomatch hfm2⟩
    · exact h'
  | acceptFinal =>
    simp only [step]
    split_ifs with hg
    · exact ⟨fun _ => ⟨rfl, rfl, rfl, rfl⟩, fun hfm2 => nomatch hfm2⟩
    · exact h'
  | startOver =>
    simp only [step]
    split_ifs with hg
    · exact ⟨fun _ => ⟨rfl, rfl, rfl, rfl⟩, fun hfm2 => nomatch hfm2⟩
    · exact h'
  | sectionComplete =>
    simp only [step]
    split_ifs with hg
    · obtain ⟨hed, hcs, hge⟩ := screenOf_sectionComplete_facts hg
      have hfm : (updateCompleted st).followup_mode = false := by
        cases hfmc : (updateCompleted st).followup_mode
        · rfl
        · exact absurd (h'.2 hfmc).2 (by omega)
      have hclear := h'.1 hfm
      exact ⟨fun _ => hclear, fun hfm2 => nomatch hfm2⟩
    · exact h'
  | editRequest sec qIndex =>
    simp only [step]
    split_ifs with hg
    · exact h'
    · exact h'
  | saveChanges t =>
    simp only [step]
    split_ifs with hg
    · obtain ⟨e1, e2, e3, e4, e5, e6, e7, e8⟩ :=
        saveChangesEffect_preserves (updateCompleted st) t now
      constructor
      · intro hfm2
        rw [e1] at hfm2
        have hc := h'.1 hfm2
        exact ⟨e2.trans hc.1, e3.trans hc.2.1,
          e4.trans hc.2.2.1, e5.trans hc.2.2.2⟩
      · intro hfm2
        rw [e1] at hfm2
        have hp := h'.2 hfm2
        refine ⟨by rw [e6]; exact hp.1, ?_⟩
        have hqs : currentQuestions (saveChangesEffect (updateCompleted st) t now)
            = currentQuestions (updateCompleted st) := by
          unfold currentQuestions
          rw [e8, e6]
        rw [e7, hqs]
        exact hp.2
    · exact h'
  | cancelEdit =>
    simp only [step]
    split_ifs with hg
    · exact h'
    · exact h'
  | startNew =>
    simp only [step]
    split_ifs with hg
    · exact ⟨fun _ => ⟨rfl, rfl, rfl, rfl⟩, fun hfm2 => nomatch hfm2⟩
    · exact h'

theorem followupInv_reachable (bank : Bank) (st : SessionState)
    (h : Reachable bank st) : followupInv st := by
  induction h with
  | init => exact followupInv_init bank
  | next st0 g jl now a _ ih => exact followupInv_step g jl now st0 a ih

/-- C8: in every reachable state outside follow-up mode the follow-up
sub-state is empty — `pendingFollowups`, `collectedAnswers`, the cursor and
the saved original answer are all at their initial values.  Proved via the
inductive invariant `followupInv`, so it holds in particular after
`Back to Sections` and after the automatic Section-Complete transition. -/
theorem C8_followup_substate_empty (bank : Bank) (st : SessionState)
    (h : Reachable bank st) (hm : st.followup_mode = false) :
    st.followup_questions = [] ∧ st.followup_answers = [] ∧
    st.current_followup_index = 0 ∧ st.original_answer = "" :=
  (followupInv_reachable bank st h).1 hm

/-- C8 witness: the concrete reachable state obtained by selecting the demo
section and firing `Back to Sections` is outside follow-up mode with all
four sub-state fields empty. -/
theorem C8_followup_substate_empty_witness :
    backTrace.followup_questions = [] ∧ backTrace.followup_answers = [] ∧
    backTrace.current_followup_index = 0 ∧ backTrace.original_answer = "" := by
  have hr : Reachable demoBank backTrace := by
    unfold backTrace
    exact Reachable.next _ _ _ _ _ (Reachable.next _ _ _ _ _ Reachable.init)
  exact C8_followup_substate_empty demoBank backTrace hr (by decide)

end BPR
